import Mathlib

/-!
Shallow embedding of `deep_research_openai.py` (LLaMA Deep Research Agent).

The program is a Streamlit page that orchestrates three HTTP calls:
one Firecrawl deep-research call and two LLaMA completion calls.  The two
external services are modelled as oracle functions passed in explicitly:

* `respond : String → HttpResponse` models `requests.post(endpoint, json=payload)`
  for a given prompt (the payload is a pure function of the prompt, so the
  oracle is indexed by the prompt);
* `crawl : FirecrawlRequest → Except String Json` models
  `firecrawl_app.deep_research(query=..., params=...)`; `.error e` models the
  call raising a Python exception whose `str()` is `e`.

Python exceptions are modelled with `Except String`; JSON values decoded by
`response.json()` are modelled by the `Json` inductive below.
-/

/-- A JSON value as produced by Python's `response.json()`.  Numbers are
modelled by `Int` (no claim involves fractional numbers). -/
inductive Json where
  | null
  | bool (b : Bool)
  | num (n : Int)
  | str (s : String)
  | arr (items : List Json)
  | obj (fields : List (String × Json))

/-- Python subscription `j[key]` on a decoded JSON value: a `KeyError` when the
key is absent from a dict, a `TypeError` when the value is not a dict. -/
def Json.getItem : Json → String → Except String Json
  | Json.obj fields, k =>
      match List.lookup k fields with
      | some v => Except.ok v
      | none => Except.error ("KeyError: '" ++ k ++ "'")
  | _, k => Except.error ("TypeError: value is not subscriptable by key '" ++ k ++ "'")

/-- Python `len()` on a decoded JSON value: defined on lists, strings and
dicts, a `TypeError` otherwise. -/
def pyLen : Json → Except String Nat
  | Json.arr items => Except.ok items.length
  | Json.str s => Except.ok s.length
  | Json.obj fields => Except.ok fields.length
  | _ => Except.error "TypeError: object has no len()"

mutual

/-- Models Python `repr()` on decoded JSON values (for strings it is faithful
when the string contains no quote, backslash or control character, which is
all any claim exercises). -/
def pyRepr : Json → String
  | Json.null => "None"
  | Json.bool true => "True"
  | Json.bool false => "False"
  | Json.num n => toString n
  | Json.str s => "'" ++ s ++ "'"
  | Json.arr items => "[" ++ pyReprList items ++ "]"
  | Json.obj fields => "\x7b" ++ pyReprFields fields ++ "\x7d"

/-- Comma-separated `repr` of list elements. -/
def pyReprList : List Json → String
  | [] => ""
  | [j] => pyRepr j
  | j :: js => pyRepr j ++ ", " ++ pyReprList js

/-- Comma-separated `repr` of dict entries. -/
def pyReprFields : List (String × Json) → String
  | [] => ""
  | [(k, v)] => "'" ++ k ++ "': " ++ pyRepr v
  | (k, v) :: fs => "'" ++ k ++ "': " ++ pyRepr v ++ ", " ++ pyReprFields fs

end

/-- Models Python `str()` as used by f-string interpolation: a `str` is
inserted verbatim, every other value through its `repr`. -/
def pyStr : Json → String
  | Json.str s => s
  | j => pyRepr j

/-- Python `str.strip()`: drops leading and trailing whitespace characters
(the ASCII whitespace any claim exercises). -/
def pyStrip (s : String) : String :=
  String.mk ((((s.data.dropWhile Char.isWhitespace).reverse.dropWhile
    Char.isWhitespace).reverse))

/-- The part of a `requests` response that the program observes:
`status_code`, `text`, and the JSON value decoded by `response.json()`
(`body`).  A body that fails to decode is not modelled; no claim concerns
one. -/
structure HttpResponse where
  status : Nat
  text : String
  body : Json

/-- `call_llama(prompt)`: posts the prompt to the configured endpoint
(abstracted by `respond`), then
* on a non-200 status raises `LLaMA API error: <status> - <text>`;
* on 200 returns `result[0]["generated_text"]` when the body is a list
  (an `IndexError` on an empty list, a `KeyError`/`TypeError` from the
  subscription otherwise), and `result.get("generated_text", "").strip()`
  when it is a dict (an `AttributeError` when the field's value is not a
  string, since only `str` has `.strip()`); any other body raises an
  `AttributeError` because only dicts have `.get`. -/
def call_llama (respond : String → HttpResponse) (prompt : String) :
    Except String Json :=
  let response := respond prompt
  if response.status = 200 then
    match response.body with
    | Json.arr [] => Except.error "IndexError: list index out of range"
    | Json.arr (item :: _) => item.getItem "generated_text"
    | Json.obj fields =>
        match List.lookup "generated_text" fields with
        | some (Json.str s) => Except.ok (Json.str (pyStrip s))
        | some _ => Except.error "AttributeError: object has no attribute 'strip'"
        | none => Except.ok (Json.str "")
    | _ => Except.error "AttributeError: object has no attribute 'get'"
  else
    Except.error ("LLaMA API error: " ++ toString response.status ++ " - " ++ response.text)

/-- The arguments the program hands to
`firecrawl_app.deep_research(query=..., params={maxDepth, timeLimit, maxUrls})`. -/
structure FirecrawlRequest where
  query : String
  maxDepth : Int
  timeLimit : Int
  maxUrls : Int
deriving DecidableEq

/-- The dict `deep_research` returns: either
`{"success": True, "final_analysis": ..., "sources_count": ..., "sources": ...}`
or `{"error": str(e), "success": False}`. -/
inductive ResearchResult where
  | ok (final_analysis : Json) (sources_count : Nat) (sources : Json)
  | err (error : String)

/-- The `"success"` entry of the returned dict. -/
def ResearchResult.success : ResearchResult → Bool
  | ResearchResult.ok _ _ _ => true
  | ResearchResult.err _ => false

/-- The field accesses the `try` block of `deep_research` performs on the
Firecrawl result: `results['data']['finalAnalysis']`,
`results['data']['sources']` and `len(sources)`; the first raised exception
aborts the block. -/
def extractResearchData (results : Json) : Except String (Json × Nat × Json) := do
  let data ← results.getItem "data"
  let final_analysis ← data.getItem "finalAnalysis"
  let sources ← data.getItem "sources"
  let n ← pyLen sources
  pure (final_analysis, n, sources)

/-- `deep_research(query, max_depth, time_limit, max_urls)`: calls the
Firecrawl service (abstracted by `crawl`) with the query and the params dict,
then inside the same `try` extracts `results['data']['finalAnalysis']` and
`results['data']['sources']` and computes `len(sources)`; `except Exception`
turns every raised exception into `{"error": str(e), "success": False}`.
The second component records the Firecrawl calls made (always exactly one). -/
def deep_research (crawl : FirecrawlRequest → Except String Json)
    (query : String) (max_depth time_limit max_urls : Int) :
    ResearchResult × List FirecrawlRequest :=
  let req : FirecrawlRequest :=
    { query := query, maxDepth := max_depth, timeLimit := time_limit, maxUrls := max_urls }
  match crawl req with
  | Except.error e => (ResearchResult.err e, [req])
  | Except.ok results =>
      match extractResearchData results with
      | Except.error e => (ResearchResult.err e, [req])
      | Except.ok (final_analysis, n, sources) =>
          (ResearchResult.ok final_analysis n sources, [req])

/-- The first f-string prompt of `run_research_process`, with the topic, the
`str()` of the analysis and the `str()` of the sources interpolated. -/
def initial_prompt (topic final_analysis sources : String) : String :=
  "\nYou are a research assistant. Based on the analysis and sources below, generate a clear, structured research report.\n\nTopic: "
    ++ topic
    ++ "\n\nAnalysis:\n"
    ++ final_analysis
    ++ "\n\nSources:\n"
    ++ sources
    ++ "\n\nWrite a concise research report with citations and key insights.\n"

/-- The second f-string prompt of `run_research_process`, with the `str()` of
the initial report interpolated. -/
def enhancement_prompt (initial_report : String) : String :=
  "\nEnhance the following research report by:\n- Adding more detail to complex parts\n- Including examples, case studies, and applications\n- Describing visual elements like diagrams\n- Making the report comprehensive but factual\n\nOriginal Report:\n"
    ++ initial_report
    ++ "\n"

/-- `run_research_process(topic)`: runs `deep_research(topic, max_depth=3,
time_limit=180, max_urls=10)`; when its `"success"` entry is falsy, returns
the literal failure string; otherwise builds the initial prompt from the
analysis and sources, calls `call_llama`, builds the enhancement prompt from
the draft, calls `call_llama` again and returns its result unchanged.  A
`call_llama` exception propagates (`.error`).  The second and third
components record the Firecrawl requests and the `call_llama` prompts issued,
in order. -/
def run_research_process (crawl : FirecrawlRequest → Except String Json)
    (respond : String → HttpResponse) (topic : String) :
    Except String Json × List FirecrawlRequest × List String :=
  let research := deep_research crawl topic 3 180 10
  match research.1 with
  | ResearchResult.err _ =>
      (Except.ok (Json.str "Research failed. Please try again."), research.2, [])
  | ResearchResult.ok final_analysis _ sources =>
      let p1 := initial_prompt topic (pyStr final_analysis) (pyStr sources)
      match call_llama respond p1 with
      | Except.error e => (Except.error e, research.2, [p1])
      | Except.ok initial_report =>
          let p2 := enhancement_prompt (pyStr initial_report)
          match call_llama respond p2 with
          | Except.error e => (Except.error e, research.2, [p1, p2])
          | Except.ok enhanced_report =>
              (Except.ok enhanced_report, research.2, [p1, p2])

/-- The three session-scoped credential strings held in `st.session_state`. -/
structure Credentials where
  llama_endpoint : String
  llama_api_key : String
  firecrawl_api_key : String
deriving DecidableEq

/-- One execution of the sidebar block: each of the three `if` statements
overwrites the stored value with the text-input's current value only when
that value is truthy (non-empty). -/
def applySidebar (state entered : Credentials) : Credentials :=
  { llama_endpoint :=
      if entered.llama_endpoint ≠ "" then entered.llama_endpoint else state.llama_endpoint,
    llama_api_key :=
      if entered.llama_api_key ≠ "" then entered.llama_api_key else state.llama_api_key,
    firecrawl_api_key :=
      if entered.firecrawl_api_key ≠ "" then entered.firecrawl_api_key
      else state.firecrawl_api_key }

/-- Python `and` on two strings: the first operand when it is falsy (empty),
the second otherwise. -/
def pyAnd (a b : String) : String :=
  if a = "" then a else b

/-- Python `not` on a string: `True` exactly on the empty string. -/
def pyNot (a : String) : Bool :=
  a = ""

/-- The `disabled` argument of the Start Research button:
`not (research_topic and st.session_state.llama_endpoint and
st.session_state.firecrawl_api_key)`. -/
def startResearchDisabled (research_topic : String) (c : Credentials) : Bool :=
  pyNot (pyAnd (pyAnd research_topic c.llama_endpoint) c.firecrawl_api_key)

/-- Outcome of the button handler: either one warning is shown and nothing
else happens (in particular no oracle is consulted, hence no network call),
or `run_research_process` runs, with its outcome and its two call traces. -/
inductive TriggerResult where
  | warned (message : String)
  | ran (outcome : Except String Json) (crawlCalls : List FirecrawlRequest)
        (llamaPrompts : List String)

/-- The body of `if st.button("Start Research", disabled=...)`: three guard
clauses each showing a warning for a missing input, else
`asyncio.run(run_research_process(research_topic))` (the surrounding
`try/except` only renders the outcome, which `.error` already carries). -/
def triggerAction (crawl : FirecrawlRequest → Except String Json)
    (respond : String → HttpResponse) (research_topic : String)
    (c : Credentials) : TriggerResult :=
  if research_topic = "" then
    TriggerResult.warned "Please enter a research topic."
  else if c.firecrawl_api_key = "" then
    TriggerResult.warned "Please enter the Firecrawl API key."
  else if c.llama_endpoint = "" then
    TriggerResult.warned "Please enter the LLaMA API endpoint."
  else
    let r := run_research_process crawl respond research_topic
    TriggerResult.ran r.1 r.2.1 r.2.2

/-- A completion endpoint that answers every prompt with the same response
(used to instantiate theorems at concrete inputs). -/
def constRespond (r : HttpResponse) : String → HttpResponse :=
  fun _ => r

/-- A Firecrawl service that answers every request with the same outcome
(used to instantiate theorems at concrete inputs). -/
def constCrawl (r : Except String Json) : FirecrawlRequest → Except String Json :=
  fun _ => r


/-- Helper: `deep_research` issues exactly one Firecrawl call, with its own
arguments. -/
theorem deep_research_calls (crawl : FirecrawlRequest → Except String Json)
    (query : String) (max_depth time_limit max_urls : Int) :
    (deep_research crawl query max_depth time_limit max_urls).2 =
      [{ query := query, maxDepth := max_depth, timeLimit := time_limit,
         maxUrls := max_urls }] := by
  simp only [deep_research]
  rcases h : crawl ⟨query, max_depth, time_limit, max_urls⟩ with e | results
  · simp [h]
  · rcases hx : extractResearchData results with e | ⟨fa, n, srcs⟩ <;> simp [h, hx]

/-- C1: for every prompt, if the completion endpoint responds with a status
other than 200 (in particular any non-success status), `call_llama` does not
return a value: it raises an error whose message contains the numeric status
code. -/
theorem call_llama_non_success_raises (respond : String → HttpResponse)
    (prompt : String) (h : (respond prompt).status ≠ 200) :
    ∃ pre post, call_llama respond prompt =
      Except.error (pre ++ toString (respond prompt).status ++ post) := by
  refine ⟨"LLaMA API error: ", " - " ++ (respond prompt).text, ?_⟩
  unfold call_llama
  simp [h, String.append_assoc]

/-- C1 witness: at status 404 the call errors with the code in the message. -/
theorem call_llama_non_success_raises_witness :
    (constRespond ⟨404, "Not Found", Json.null⟩ "p").status ≠ 200 ∧
    ∃ pre post, call_llama (constRespond ⟨404, "Not Found", Json.null⟩) "p" =
      Except.error (pre ++ toString (constRespond ⟨404, "Not Found", Json.null⟩ "p").status ++ post) :=
  ⟨by decide, call_llama_non_success_raises (constRespond ⟨404, "Not Found", Json.null⟩) "p" (by decide)⟩

/-- C2 counterexample: on a 200 response whose body is the single object
`{"generated_text": " x "}`, `call_llama` returns `"x"`, not the field's
value `" x "` directly: the object branch applies `.strip()`. -/
theorem call_llama_object_strip_counterexample :
    call_llama (constRespond ⟨200, "", Json.obj [("generated_text", Json.str " x ")]⟩) "p" =
      Except.ok (Json.str "x") ∧
    Json.str "x" ≠ Json.str " x " := by
  refine ⟨rfl, ?_⟩
  intro h
  injection h with h1
  exact absurd h1 (by decide)

/-- C2 amended: on a 200 response, when the body is a list `call_llama`
returns element 0's `generated_text` field as is; when the body is a single
object it returns the object's `generated_text` string stripped of leading
and trailing whitespace. -/
theorem call_llama_extracts_generated_text (respond : String → HttpResponse)
    (prompt : String) (h200 : (respond prompt).status = 200) :
    (∀ item rest v, (respond prompt).body = Json.arr (item :: rest) →
        item.getItem "generated_text" = Except.ok v →
        call_llama respond prompt = Except.ok v)
  ∧ (∀ fields s, (respond prompt).body = Json.obj fields →
        List.lookup "generated_text" fields = some (Json.str s) →
        call_llama respond prompt = Except.ok (Json.str (pyStrip s))) := by
  constructor
  · intro item rest v hbody hget
    unfold call_llama
    simp [h200, hbody, hget]
  · intro fields s hbody hget
    unfold call_llama
    simp [h200, hbody, hget]

/-- C2 witness: a list body and an object body, each instantiated. -/
theorem call_llama_extracts_generated_text_witness :
    ((constRespond ⟨200, "", Json.arr [Json.obj [("generated_text", Json.str "hi")]]⟩ "p").status = 200 ∧
      call_llama (constRespond ⟨200, "", Json.arr [Json.obj [("generated_text", Json.str "hi")]]⟩) "p" =
        Except.ok (Json.str "hi"))
  ∧ ((constRespond ⟨200, "", Json.obj [("generated_text", Json.str " a b ")]⟩ "p").status = 200 ∧
      call_llama (constRespond ⟨200, "", Json.obj [("generated_text", Json.str " a b ")]⟩) "p" =
        Except.ok (Json.str (pyStrip " a b "))) :=
  ⟨⟨rfl,
    (call_llama_extracts_generated_text
      (constRespond ⟨200, "", Json.arr [Json.obj [("generated_text", Json.str "hi")]]⟩) "p" rfl).1
      (Json.obj [("generated_text", Json.str "hi")]) [] (Json.str "hi") rfl rfl⟩,
   ⟨rfl,
    (call_llama_extracts_generated_text
      (constRespond ⟨200, "", Json.obj [("generated_text", Json.str " a b ")]⟩) "p" rfl).2
      [("generated_text", Json.str " a b ")] " a b " rfl rfl⟩⟩

/-- C8 counterexample: the body `[]` (an empty list) is an unexpected JSON
shape on a 200 response, yet `call_llama` raises an `IndexError` instead of
treating the call as successful with an empty string. -/
theorem call_llama_unexpected_shape_counterexample :
    call_llama (constRespond ⟨200, "", Json.arr []⟩) "p" =
      Except.error "IndexError: list index out of range" ∧
    call_llama (constRespond ⟨200, "", Json.arr []⟩) "p" ≠
      Except.ok (Json.str "") := by
  refine ⟨rfl, ?_⟩
  intro h
  rw [(rfl : call_llama (constRespond ⟨200, "", Json.arr []⟩) "p" =
      Except.error "IndexError: list index out of range")] at h
  exact Except.noConfusion h

/-- C8 amended: on a 200 response whose body is an object with no
`generated_text` entry, `call_llama` treats the call as successful and
returns the empty string instead of raising. -/
theorem call_llama_missing_field_returns_empty (respond : String → HttpResponse)
    (prompt : String) (fields : List (String × Json))
    (h200 : (respond prompt).status = 200)
    (hbody : (respond prompt).body = Json.obj fields)
    (hmiss : List.lookup "generated_text" fields = none) :
    call_llama respond prompt = Except.ok (Json.str "") := by
  unfold call_llama
  simp [h200, hbody, hmiss]

/-- C8 witness: a 200 response with body `{"other": 1}` yields `""`. -/
theorem call_llama_missing_field_returns_empty_witness :
    (constRespond ⟨200, "", Json.obj [("other", Json.num 1)]⟩ "p").status = 200 ∧
    call_llama (constRespond ⟨200, "", Json.obj [("other", Json.num 1)]⟩) "p" =
      Except.ok (Json.str "") :=
  ⟨rfl,
   call_llama_missing_field_returns_empty
     (constRespond ⟨200, "", Json.obj [("other", Json.num 1)]⟩) "p"
     [("other", Json.num 1)] rfl rfl rfl⟩

/-- Helper: bind on a successful `Except` computation runs the continuation. -/
theorem except_ok_bind {ε α β : Type} (a : α) (f : α → Except ε β) :
    (Except.ok a >>= f : Except ε β) = f a := rfl

/-- Helper: mapping over a successful `Except` computation maps the value. -/
theorem except_ok_map {ε α β : Type} (a : α) (f : α → β) :
    (f <$> Except.ok a : Except ε β) = Except.ok (f a) := rfl

/-- C5: `deep_research` never raises: a crawl exception yields the failure
record carrying the exception's message; a successful crawl whose result has
the expected fields yields the success record carrying the final analysis and
the source list; and in every case the value returned is one of those two
record shapes, with its `success` entry matching. -/
theorem deep_research_never_raises (crawl : FirecrawlRequest → Except String Json)
    (query : String) (max_depth time_limit max_urls : Int) :
    (∀ e, crawl ⟨query, max_depth, time_limit, max_urls⟩ = Except.error e →
        (deep_research crawl query max_depth time_limit max_urls).1 =
          ResearchResult.err e)
  ∧ (∀ results data final_analysis sources n,
        crawl ⟨query, max_depth, time_limit, max_urls⟩ = Except.ok results →
        results.getItem "data" = Except.ok data →
        data.getItem "finalAnalysis" = Except.ok final_analysis →
        data.getItem "sources" = Except.ok sources →
        pyLen sources = Except.ok n →
        (deep_research crawl query max_depth time_limit max_urls).1 =
          ResearchResult.ok final_analysis n sources)
  ∧ ((∃ fa n srcs,
        (deep_research crawl query max_depth time_limit max_urls).1 =
          ResearchResult.ok fa n srcs ∧
        (deep_research crawl query max_depth time_limit max_urls).1.success = true)
     ∨ (∃ e,
        (deep_research crawl query max_depth time_limit max_urls).1 =
          ResearchResult.err e ∧
        (deep_research crawl query max_depth time_limit max_urls).1.success = false)) := by
  refine ⟨?_, ?_, ?_⟩
  · intro e he
    simp only [deep_research]
    simp [he]
  · intro results data final_analysis sources n hc hdata hfa hsrcs hn
    have hx : extractResearchData results =
        Except.ok (final_analysis, n, sources) := by
      simp [extractResearchData, hdata, hfa, hsrcs, hn, except_ok_bind, except_ok_map]
    simp only [deep_research]
    simp [hc, hx]
  · simp only [deep_research]
    rcases h : crawl ⟨query, max_depth, time_limit, max_urls⟩ with e | results
    · right
      exact ⟨e, by simp [h], by simp [h, ResearchResult.success]⟩
    · rcases hx : extractResearchData results with e | ⟨fa, n, srcs⟩
      · right
        exact ⟨e, by simp [h, hx], by simp [h, hx, ResearchResult.success]⟩
      · left
        exact ⟨fa, n, srcs, by simp [h, hx], by simp [h, hx, ResearchResult.success]⟩

/-- C5 witness: a crawl that raises `"boom"` yields the failure record
carrying `"boom"`. -/
theorem deep_research_never_raises_witness :
    constCrawl (Except.error "boom") ⟨"q", 3, 180, 10⟩ = Except.error "boom" ∧
    (deep_research (constCrawl (Except.error "boom")) "q" 3 180 10).1 =
      ResearchResult.err "boom" :=
  ⟨rfl,
   (deep_research_never_raises (constCrawl (Except.error "boom")) "q" 3 180 10).1
     "boom" rfl⟩

/-- C6: every run of `run_research_process` issues exactly one Firecrawl
call, whose arguments are the user's query together with maxDepth = 3,
timeLimit = 180, maxUrls = 10. -/
theorem run_research_process_firecrawl_params
    (crawl : FirecrawlRequest → Except String Json)
    (respond : String → HttpResponse) (topic : String) :
    (run_research_process crawl respond topic).2.1 =
      [{ query := topic, maxDepth := 3, timeLimit := 180, maxUrls := 10 }] := by
  have h2 := deep_research_calls crawl topic 3 180 10
  simp only [run_research_process]
  rcases hres : (deep_research crawl topic 3 180 10).1 with ⟨fa, n, srcs⟩ | e
  · rcases h1 : call_llama respond (initial_prompt topic (pyStr fa) (pyStr srcs)) with e1 | draft
    · simp [hres, h1, h2]
    · rcases hq : call_llama respond (enhancement_prompt (pyStr draft)) with e2 | enhanced <;>
        simp [hres, h1, hq, h2]
  · simp [hres, h2]

/-- C3: when the research step returns a failure result (its `success` entry
is false), `run_research_process` returns the literal string
`"Research failed. Please try again."` and issues no `call_llama` prompt at
all (the completion endpoint is never invoked). -/
theorem run_research_process_failure_short_circuits
    (crawl : FirecrawlRequest → Except String Json)
    (respond : String → HttpResponse) (topic : String)
    (h : (deep_research crawl topic 3 180 10).1.success = false) :
    run_research_process crawl respond topic =
      (Except.ok (Json.str "Research failed. Please try again."),
       [{ query := topic, maxDepth := 3, timeLimit := 180, maxUrls := 10 }], []) := by
  obtain ⟨e, he⟩ : ∃ e, (deep_research crawl topic 3 180 10).1 = ResearchResult.err e := by
    rcases hres : (deep_research crawl topic 3 180 10).1 with ⟨fa, n, srcs⟩ | e
    · rw [hres] at h
      simp [ResearchResult.success] at h
    · exact ⟨e, rfl⟩
  have h2 := deep_research_calls crawl topic 3 180 10
  simp only [run_research_process]
  simp [he, h2]

/-- C3 witness: a crawl that raises gives the failure record, and the run
returns the failure string with an empty `call_llama` trace. -/
theorem run_research_process_failure_short_circuits_witness :
    (deep_research (constCrawl (Except.error "down")) "t" 3 180 10).1.success = false ∧
    run_research_process (constCrawl (Except.error "down"))
        (constRespond ⟨200, "", Json.obj [("generated_text", Json.str "hi")]⟩) "t" =
      (Except.ok (Json.str "Research failed. Please try again."),
       [{ query := "t", maxDepth := 3, timeLimit := 180, maxUrls := 10 }], []) :=
  ⟨rfl,
   run_research_process_failure_short_circuits (constCrawl (Except.error "down"))
     (constRespond ⟨200, "", Json.obj [("generated_text", Json.str "hi")]⟩) "t" rfl⟩

/-- C4: when the research step succeeds, `run_research_process` performs
exactly the sequence: one Firecrawl call on the topic with the fixed limits,
then a first `call_llama` on the prompt embedding the returned analysis and
sources, then a second `call_llama` on the enhancement prompt embedding the
draft, and it returns the second call's result unchanged. -/
theorem run_research_process_success_sequence
    (crawl : FirecrawlRequest → Except String Json)
    (respond : String → HttpResponse) (topic : String)
    (final_analysis sources : Json) (n : Nat) (draft enhanced : Json)
    (hres : (deep_research crawl topic 3 180 10).1 =
      ResearchResult.ok final_analysis n sources)
    (h1 : call_llama respond
      (initial_prompt topic (pyStr final_analysis) (pyStr sources)) = Except.ok draft)
    (h2 : call_llama respond (enhancement_prompt (pyStr draft)) = Except.ok enhanced) :
    run_research_process crawl respond topic =
      (Except.ok enhanced,
       [{ query := topic, maxDepth := 3, timeLimit := 180, maxUrls := 10 }],
       [initial_prompt topic (pyStr final_analysis) (pyStr sources),
        enhancement_prompt (pyStr draft)]) := by
  have hc := deep_research_calls crawl topic 3 180 10
  simp only [run_research_process]
  simp [hres, h1, h2, hc]

/-- C4 witness: concrete oracles exercising the full draft-then-enhance
sequence. -/
theorem run_research_process_success_sequence_witness :
    (deep_research (constCrawl (Except.ok (Json.obj [("data", Json.obj
        [("finalAnalysis", Json.str "A"), ("sources", Json.arr [])])])))
        "t" 3 180 10).1 =
      ResearchResult.ok (Json.str "A") 0 (Json.arr []) ∧
    run_research_process
        (constCrawl (Except.ok (Json.obj [("data", Json.obj
          [("finalAnalysis", Json.str "A"), ("sources", Json.arr [])])])))
        (constRespond ⟨200, "", Json.obj [("generated_text", Json.str "out")]⟩) "t" =
      (Except.ok (Json.str "out"),
       [{ query := "t", maxDepth := 3, timeLimit := 180, maxUrls := 10 }],
       [initial_prompt "t" (pyStr (Json.str "A")) (pyStr (Json.arr [])),
        enhancement_prompt (pyStr (Json.str "out"))]) :=
  ⟨rfl,
   run_research_process_success_sequence
     (constCrawl (Except.ok (Json.obj [("data", Json.obj
       [("finalAnalysis", Json.str "A"), ("sources", Json.arr [])])])))
     (constRespond ⟨200, "", Json.obj [("generated_text", Json.str "out")]⟩) "t"
     (Json.str "A") (Json.arr []) 0 (Json.str "out") (Json.str "out")
     rfl rfl rfl⟩

/-- C7: the Start Research button is disabled exactly when at least one of
the topic, the LLaMA endpoint, or the Firecrawl key is the empty string, and
enabled exactly when all three are non-empty; the LLaMA API key plays no
role. -/
theorem start_research_button_gating (topic : String) (c : Credentials) :
    (startResearchDisabled topic c = true ↔
      (topic = "" ∨ c.llama_endpoint = "" ∨ c.firecrawl_api_key = ""))
  ∧ (startResearchDisabled topic c = false ↔
      (topic ≠ "" ∧ c.llama_endpoint ≠ "" ∧ c.firecrawl_api_key ≠ ""))
  ∧ (∀ k, startResearchDisabled topic { c with llama_api_key := k } =
      startResearchDisabled topic c) := by
  refine ⟨?_, ?_, fun k => rfl⟩ <;>
  · by_cases h1 : topic = "" <;>
    by_cases h2 : c.llama_endpoint = "" <;>
    by_cases h3 : c.firecrawl_api_key = "" <;>
    simp [startResearchDisabled, pyAnd, pyNot, h1, h2, h3]

/-- Helper: one sidebar run keeps a non-empty stored endpoint non-empty. -/
theorem applySidebar_keeps_endpoint (state entered : Credentials)
    (h : state.llama_endpoint ≠ "") :
    (applySidebar state entered).llama_endpoint ≠ "" := by
  by_cases he : entered.llama_endpoint = "" <;> simp [applySidebar, he, h]

/-- Helper: one sidebar run keeps a non-empty stored LLaMA key non-empty. -/
theorem applySidebar_keeps_api_key (state entered : Credentials)
    (h : state.llama_api_key ≠ "") :
    (applySidebar state entered).llama_api_key ≠ "" := by
  by_cases he : entered.llama_api_key = "" <;> simp [applySidebar, he, h]

/-- Helper: one sidebar run keeps a non-empty stored Firecrawl key
non-empty. -/
theorem applySidebar_keeps_firecrawl_key (state entered : Credentials)
    (h : state.firecrawl_api_key ≠ "") :
    (applySidebar state entered).firecrawl_api_key ≠ "" := by
  by_cases he : entered.firecrawl_api_key = "" <;> simp [applySidebar, he, h]

/-- Helper: folding any sequence of sidebar runs preserves non-emptiness of
each stored credential. -/
theorem foldl_applySidebar_keeps (inputs : List Credentials) (init : Credentials) :
    (init.llama_endpoint ≠ "" →
      (inputs.foldl applySidebar init).llama_endpoint ≠ "")
  ∧ (init.llama_api_key ≠ "" →
      (inputs.foldl applySidebar init).llama_api_key ≠ "")
  ∧ (init.firecrawl_api_key ≠ "" →
      (inputs.foldl applySidebar init).firecrawl_api_key ≠ "") := by
  induction inputs generalizing init with
  | nil => exact ⟨id, id, id⟩
  | cons i rest ih =>
      refine ⟨fun h => ?_, fun h => ?_, fun h => ?_⟩ <;>
        simp only [List.foldl_cons]
      · exact (ih (applySidebar init i)).1 (applySidebar_keeps_endpoint init i h)
      · exact (ih (applySidebar init i)).2.1 (applySidebar_keeps_api_key init i h)
      · exact (ih (applySidebar init i)).2.2 (applySidebar_keeps_firecrawl_key init i h)

/-- C10: stored credentials are monotone: an empty text-input value leaves
the stored value unchanged, and once a stored credential is non-empty no
sequence of sidebar runs can make it empty again. -/
theorem sidebar_credentials_monotone (init : Credentials) (inputs : List Credentials) :
    ((init.llama_endpoint ≠ "" →
        (inputs.foldl applySidebar init).llama_endpoint ≠ "")
     ∧ (init.llama_api_key ≠ "" →
        (inputs.foldl applySidebar init).llama_api_key ≠ "")
     ∧ (init.firecrawl_api_key ≠ "" →
        (inputs.foldl applySidebar init).firecrawl_api_key ≠ ""))
  ∧ (∀ entered : Credentials,
      (entered.llama_endpoint = "" →
        (applySidebar init entered).llama_endpoint = init.llama_endpoint)
      ∧ (entered.llama_api_key = "" →
        (applySidebar init entered).llama_api_key = init.llama_api_key)
      ∧ (entered.firecrawl_api_key = "" →
        (applySidebar init entered).firecrawl_api_key = init.firecrawl_api_key)) := by
  refine ⟨foldl_applySidebar_keeps inputs init, fun entered => ⟨?_, ?_, ?_⟩⟩ <;>
    intro h <;> simp [applySidebar, h]

/-- C10 witness: non-empty stored credentials survive a run in which every
input field was cleared. -/
theorem sidebar_credentials_monotone_witness :
    (Credentials.mk "e" "k" "f").llama_endpoint ≠ "" ∧
    (([Credentials.mk "" "" ""].foldl applySidebar
      (Credentials.mk "e" "k" "f")).llama_endpoint ≠ "") ∧
    (Credentials.mk "" "" "").llama_endpoint = "" ∧
    (applySidebar (Credentials.mk "e" "k" "f")
      (Credentials.mk "" "" "")).llama_endpoint =
      (Credentials.mk "e" "k" "f").llama_endpoint :=
  ⟨by decide,
   (sidebar_credentials_monotone (Credentials.mk "e" "k" "f")
     [Credentials.mk "" "" ""]).1.1 (by decide),
   rfl,
   ((sidebar_credentials_monotone (Credentials.mk "e" "k" "f")
     [Credentials.mk "" "" ""]).2 (Credentials.mk "" "" "")).1 rfl⟩

/-- Helper: the button is enabled exactly when topic, endpoint and Firecrawl
key are all non-empty. -/
theorem startResearchDisabled_false_iff (topic : String) (c : Credentials) :
    startResearchDisabled topic c = false ↔
      (topic ≠ "" ∧ c.llama_endpoint ≠ "" ∧ c.firecrawl_api_key ≠ "") := by
  by_cases h1 : topic = "" <;>
  by_cases h2 : c.llama_endpoint = "" <;>
  by_cases h3 : c.firecrawl_api_key = "" <;>
  simp [startResearchDisabled, pyAnd, pyNot, h1, h2, h3]

/-- C9: the trigger handler warns, and consults no oracle (a `warned` outcome
carries no network activity), exactly when a required input is empty, naming
the first missing input in guard order; in every state where the button can
actually fire (it is not disabled) the handler runs the research process and
takes no warning branch. -/
theorem trigger_action_warning_guards
    (crawl : FirecrawlRequest → Except String Json)
    (respond : String → HttpResponse) (topic : String) (c : Credentials) :
    (startResearchDisabled topic c = false →
      triggerAction crawl respond topic c =
        TriggerResult.ran (run_research_process crawl respond topic).1
          (run_research_process crawl respond topic).2.1
          (run_research_process crawl respond topic).2.2)
  ∧ ((∃ m, triggerAction crawl respond topic c = TriggerResult.warned m) ↔
      (topic = "" ∨ c.firecrawl_api_key = "" ∨ c.llama_endpoint = ""))
  ∧ (topic = "" →
      triggerAction crawl respond topic c =
        TriggerResult.warned "Please enter a research topic.")
  ∧ (topic ≠ "" → c.firecrawl_api_key = "" →
      triggerAction crawl respond topic c =
        TriggerResult.warned "Please enter the Firecrawl API key.")
  ∧ (topic ≠ "" → c.firecrawl_api_key ≠ "" → c.llama_endpoint = "" →
      triggerAction crawl respond topic c =
        TriggerResult.warned "Please enter the LLaMA API endpoint.") := by
  refine ⟨?_, ?_, ?_, ?_, ?_⟩
  · intro hd
    have h := (startResearchDisabled_false_iff topic c).mp hd
    simp [triggerAction, h.1, h.2.1, h.2.2]
  · constructor
    · rintro ⟨m, hm⟩
      by_cases h1 : topic = ""
      · exact Or.inl h1
      · by_cases h3 : c.firecrawl_api_key = ""
        · exact Or.inr (Or.inl h3)
        · by_cases h2 : c.llama_endpoint = ""
          · exact Or.inr (Or.inr h2)
          · simp [triggerAction, h1, h2, h3] at hm
    · intro h
      by_cases h1 : topic = ""
      · exact ⟨"Please enter a research topic.", by simp [triggerAction, h1]⟩
      · by_cases h3 : c.firecrawl_api_key = ""
        · exact ⟨"Please enter the Firecrawl API key.", by simp [triggerAction, h1, h3]⟩
        · by_cases h2 : c.llama_endpoint = ""
          · exact ⟨"Please enter the LLaMA API endpoint.",
              by simp [triggerAction, h1, h2, h3]⟩
          · rcases h with h | h | h <;> contradiction
  · intro h1
    simp [triggerAction, h1]
  · intro h1 h3
    simp [triggerAction, h1, h3]
  · intro h1 h3 h2
    simp [triggerAction, h1, h2, h3]

/-- C9 witness: with every input present the handler runs the process; with
an empty topic it warns. -/
theorem trigger_action_warning_guards_witness :
    startResearchDisabled "t" (Credentials.mk "e" "" "f") = false ∧
    triggerAction (constCrawl (Except.error "down"))
        (constRespond ⟨200, "", Json.obj [("generated_text", Json.str "hi")]⟩)
        "t" (Credentials.mk "e" "" "f") =
      TriggerResult.ran
        (run_research_process (constCrawl (Except.error "down"))
          (constRespond ⟨200, "", Json.obj [("generated_text", Json.str "hi")]⟩) "t").1
        (run_research_process (constCrawl (Except.error "down"))
          (constRespond ⟨200, "", Json.obj [("generated_text", Json.str "hi")]⟩) "t").2.1
        (run_research_process (constCrawl (Except.error "down"))
          (constRespond ⟨200, "", Json.obj [("generated_text", Json.str "hi")]⟩) "t").2.2 ∧
    ("" : String) = "" ∧
    triggerAction (constCrawl (Except.error "down"))
        (constRespond ⟨200, "", Json.obj [("generated_text", Json.str "hi")]⟩)
        "" (Credentials.mk "e" "" "f") =
      TriggerResult.warned "Please enter a research topic." :=
  ⟨rfl,
   (trigger_action_warning_guards (constCrawl (Except.error "down"))
     (constRespond ⟨200, "", Json.obj [("generated_text", Json.str "hi")]⟩)
     "t" (Credentials.mk "e" "" "f")).1 rfl,
   rfl,
   (trigger_action_warning_guards (constCrawl (Except.error "down"))
     (constRespond ⟨200, "", Json.obj [("generated_text", Json.str "hi")]⟩)
     "" (Credentials.mk "e" "" "f")).2.2.1 rfl⟩
